import Mathlib

/-!
Shallow embedding of the training-run lifecycle and checkpoint/scheduler
subsystem of the mothernet repository (files src/tabpfn/utils.py,
src/tabpfn/fit_model.py, src/mothernet/fit_model.py), together with
theorems settling the specification claims about it.

Numeric values carried by the Python code (losses, learning rates) are
modelled as rationals; the transcendental cosine used by the restart
schedule is modelled over the reals.
-/

/- ===================================================================
   ReduceLROnSpike (src/tabpfn/utils.py lines 403-494)
   =================================================================== -/

/-- State of a ReduceLROnSpike scheduler.  Mirrors the attributes of the
Python class: the configuration fields set in the constructor, the epoch
counter, the smoothing window of recent losses, and the live optimizer
learning rates (one per parameter group).  The field recent_loses (sic)
mirrors the misspelled attribute that line 475 of utils.py assigns to in
the non-triggering full-window branch of step. -/
structure SpikeState where
  factor : ℚ
  min_lrs : List ℚ
  eps : ℚ
  smoothing : ℕ
  verbose : Bool
  last_epoch : ℕ
  recent_losses : List ℚ
  recent_loses : List ℚ
  lrs : List ℚ
  last_lr : Option (List ℚ)
deriving Repr, DecidableEq

/-- Mean of a list of rationals, as computed by np.mean (sum divided by
length; the empty list gives 0 under rational division by zero). -/
def npMean (xs : List ℚ) : ℚ := xs.sum / (xs.length : ℚ)

/-- Population variance of a list of rationals: np.std squared (np.std
uses the population convention, dividing by n). -/
def npVar (xs : List ℚ) : ℚ :=
  ((xs.map (fun x => (x - npMean xs) ^ 2)).sum) / (xs.length : ℚ)

/-- Spike condition of utils.py line 467:
np.abs(np.mean(recent_losses) - current) > np.std(recent_losses).
Since np.std is the square root of npVar and both sides of the comparison
are nonnegative, the condition holds exactly when the square of the mean
deviation exceeds the variance, which is what we state over ℚ. -/
def spikeTrigger (window : List ℚ) (current : ℚ) : Bool :=
  decide ((npMean window - current) ^ 2 > npVar window)

/-- Per-group body of ReduceLROnSpike._reduce_lr (utils.py lines 480-484):
new_lr = max(old_lr * factor, min_lr); the assignment is suppressed unless
old_lr - new_lr > eps. -/
def reduceGroupLr (factor eps min_lr old_lr : ℚ) : ℚ :=
  let new_lr := max (old_lr * factor) min_lr
  if old_lr - new_lr > eps then new_lr else old_lr

/-- ReduceLROnSpike._reduce_lr (utils.py lines 479-488): applies the
per-group update to every optimizer parameter group. -/
def SpikeState.reduce_lr (s : SpikeState) : SpikeState :=
  { s with lrs := (s.lrs.zip s.min_lrs).map fun g => reduceGroupLr s.factor s.eps g.2 g.1 }

/-- ReduceLROnSpike.step (utils.py lines 457-477).  Increments the epoch
counter; while the window holds fewer than smoothing samples it only
appends the observation and returns; on a full window it either triggers
(reduce learning rates, clear the window) or takes the sliding branch,
which in the source assigns the slid window to the misspelled attribute
recent_loses, leaving recent_losses itself unchanged.  The final
statement of the full-window paths records _last_lr. -/
def SpikeState.step (s : SpikeState) (metrics : ℚ) : SpikeState :=
  let current := metrics
  let s1 : SpikeState := { s with last_epoch := s.last_epoch + 1 }
  if s1.recent_losses.length < s1.smoothing then
    { s1 with recent_losses := s1.recent_losses ++ [current] }
  else if spikeTrigger s1.recent_losses current then
    let s2 := s1.reduce_lr
    { s2 with recent_losses := [], last_lr := some s2.lrs }
  else
    let s2 : SpikeState := { s1 with recent_loses := s1.recent_losses.drop 1 ++ [current] }
    { s2 with last_lr := some s2.lrs }

/-- Folding step over a list of observed losses: a whole sequence of
calls to ReduceLROnSpike.step. -/
def SpikeState.stepMany (s : SpikeState) (ms : List ℚ) : SpikeState :=
  ms.foldl SpikeState.step s

/-- Python exceptions that ReduceLROnSpike.__init__ can raise. -/
inductive PyError where
  | valueError
  | typeError
  | nameError
deriving Repr, DecidableEq

/-- The min_lr argument of ReduceLROnSpike.__init__: a scalar or a list. -/
inductive MinLrArg where
  | scalar (q : ℚ)
  | ofList (l : List ℚ)
deriving Repr, DecidableEq

/-- ReduceLROnSpike.__init__ (utils.py lines 426-455), with the optimizer
represented by its list of parameter-group learning rates.  After the
factor check (ValueError when factor >= 1.0), the isinstance check (our
embedding always passes an optimizer), and the min_lr length check
(ValueError on a list of the wrong length), line 448 executes
self.threshold = threshold, where the name threshold is bound nowhere in
the method or module, so the constructor raises NameError before
completing; no state is ever produced. -/
def ReduceLROnSpike.init (optimizer_lrs : List ℚ) (mode : String) (factor : ℚ)
    (smoothing : ℕ) (min_lr : MinLrArg) (eps : ℚ) (verbose : Bool) :
    Except PyError SpikeState :=
  if 1 ≤ factor then .error .valueError
  else
    match min_lr with
    | .ofList l =>
        if l.length ≠ optimizer_lrs.length then .error .valueError
        else .error .nameError
    | .scalar _ => .error .nameError

/- ===================================================================
   Checkpoint manager: save_callback (src/tabpfn/fit_model.py 93-157)
   =================================================================== -/

/-- Python list indexing with wraparound for negative indices: xs[i]
returns the element at i when 0 <= i < len(xs), at len(xs) + i when
-len(xs) <= i < 0, and raises IndexError (modelled as none) otherwise. -/
def pyGet (xs : List ℚ) (i : ℤ) : Option ℚ :=
  let j : ℤ := if i < 0 then i + xs.length else i
  if 0 ≤ j then xs.get? j.toNat else none

/-- The pruning loop of save_callback (fit_model.py lines 142-153), run
over the iteration indices is (in the source, range(epoch // save_every)).
Iteration i reads loss = model.losses[i * save_every - 1] (an IndexError
here aborts the whole try block, caught by the outer handler, so the
remaining iterations do not run and no further file is removed), then
removes the file of bucket i * save_every exactly when that file exists
and loss > this_loss.  Returns the list of removed buckets. -/
def retentionLoop (losses : List ℚ) (save_every : ℕ) (exists_file : ℕ → Bool)
    (this_loss : ℚ) : List ℕ → List ℕ
  | [] => []
  | i :: rest =>
    match pyGet losses ((i : ℤ) * (save_every : ℤ) - 1) with
    | none => []
    | some loss =>
      if exists_file (i * save_every) && decide (this_loss < loss) then
        i * save_every :: retentionLoop losses save_every exists_file this_loss rest
      else
        retentionLoop losses save_every exists_file this_loss rest

/-- The retention sweep guarded by line 140 of fit_model.py: it runs only
for an integer epoch with epoch - save_every > 0, reads
this_loss = model.losses[-1], and iterates i over range(epoch // save_every). -/
def retentionRemoved (losses : List ℚ) (save_every epoch : ℕ)
    (exists_file : ℕ → Bool) : List ℕ :=
  if save_every < epoch then
    match pyGet losses (-1) with
    | none => []
    | some this_loss =>
        retentionLoop losses save_every exists_file this_loss
          (List.range (epoch / save_every))
  else []

/-- Observable outcome of the checkpoint section of the epoch callback:
whether the checkpoint file was written, which earlier buckets were
removed, and whether an exception escaped the callback. -/
structure CallbackResult where
  fileWritten : Bool
  removed : List ℕ
  escapedException : Bool
deriving Repr, DecidableEq

/-- The checkpoint section of save_callback (fit_model.py lines 116-157)
for an integer epoch.  The whole section is wrapped in a try/except that
catches every exception, so escapedException is false on every path.
When the epoch is due (epoch % save_every == 0), the disk guard of lines
125-129 returns early without writing when the free space on the target
volume is below 1024 * 1024 * 1024 * 2 bytes; otherwise save_model runs
(save_model_ok false models save_model raising, caught by the handler)
and, on success, the retention sweep removes dominated earlier buckets. -/
def save_callback_ckpt (epoch save_every free_bytes : ℕ) (losses : List ℚ)
    (exists_file : ℕ → Bool) (save_model_ok : Bool) : CallbackResult :=
  if epoch % save_every = 0 then
    if free_bytes < 1024 * 1024 * 1024 * 2 then
      { fileWritten := false, removed := [], escapedException := false }
    else if save_model_ok then
      { fileWritten := true,
        removed := retentionRemoved losses save_every epoch exists_file,
        escapedException := false }
    else
      { fileWritten := false, removed := [], escapedException := false }
  else
    { fileWritten := false, removed := [], escapedException := false }

/- ===================================================================
   Config reconciler (src/tabpfn/fit_model.py 71-87,
   src/mothernet/fit_model.py 68-85)
   =================================================================== -/

/-- Single dictionary-key assignment config[k] = v. -/
def setKey {V : Type} (c : String → V) (k : String) (v : V) : String → V :=
  fun q => if q = k then v else c q

/-- The continue_run branch of the reconciler: config = old_config, then
config[device] = device, config[warm_start_from] = warm_start_weights,
config[stop_after_epochs] = args.stop_after_epochs, in source order. -/
def reconcileContinueConfig {V : Type} (old_config : String → V)
    (device warm_start_from stop_after_epochs : V) : String → V :=
  setKey (setKey (setKey old_config "device" device)
      "warm_start_from" warm_start_from)
    "stop_after_epochs" stop_after_epochs

/-- Scheduler handling on continue_run: the local scheduler starts as
None and is set to the checkpoint scheduler only when a scheduler restart
was not requested; a None scheduler is later rebuilt from the adopted
config by get_model. -/
def reconcileScheduler {S : Type} (restart_scheduler : Bool)
    (old_scheduler : S) : Option S :=
  if restart_scheduler then none else some old_scheduler

/- ===================================================================
   Restarting cosine schedule (src/tabpfn/utils.py 36-53)
   =================================================================== -/

/-- The inner_lr_lambda closure of
get_restarting_cosine_schedule_with_warmup (utils.py lines 39-43):
linear warmup below num_warmup_steps, then a cosine decay over the
remaining steps, with max(1, x) guards against division by zero.  The
integer subtraction num_training_steps - num_warmup_steps of the Python
source is taken in ℤ. -/
noncomputable def inner_lr_lambda (num_cycles : ℝ)
    (current_step num_warmup_steps num_training_steps : ℕ) : ℝ :=
  if current_step < num_warmup_steps then
    (current_step : ℝ) / ((max 1 num_warmup_steps : ℕ) : ℝ)
  else
    let progress : ℝ :=
      ((current_step : ℝ) - (num_warmup_steps : ℝ)) /
        ((max 1 ((num_training_steps : ℤ) - (num_warmup_steps : ℤ)) : ℤ) : ℝ)
    max 0 (0.5 * (1 + Real.cos (Real.pi * num_cycles * 2 * progress)))

/-- The lr_lambda closure of get_restarting_cosine_schedule_with_warmup
(utils.py lines 45-50): the inner cycle is evaluated at
current_step % steps_per_restart, with the warmup length passed as
num_warmup_steps only while current_step < steps_per_restart and as 0
afterwards, and with steps_per_restart as the cycle length. -/
noncomputable def restart_lr_lambda (num_cycles : ℝ)
    (num_warmup_steps steps_per_restart current_step : ℕ) : ℝ :=
  inner_lr_lambda num_cycles (current_step % steps_per_restart)
    (if current_step < steps_per_restart then num_warmup_steps else 0)
    steps_per_restart

/-- Failure modes of constructing the restarting schedule: in Python,
num_training_steps % steps_per_restart raises ZeroDivisionError when the
period is 0, and the assert on line 37 raises AssertionError when the
period does not divide the total step count. -/
inductive SchedulerError where
  | zeroDivision
  | assertionFailed
deriving Repr, DecidableEq

/-- get_restarting_cosine_schedule_with_warmup (utils.py lines 36-53):
checks the divisibility assertion and returns the step-to-multiplier
function (the LambdaLR wrapper is external torch machinery). -/
noncomputable def get_restarting_cosine_schedule_with_warmup (num_cycles : ℝ)
    (num_warmup_steps num_training_steps steps_per_restart : ℕ) :
    Except SchedulerError (ℕ → ℝ) :=
  if steps_per_restart = 0 then .error .zeroDivision
  else if num_training_steps % steps_per_restart = 0 then
    .ok (restart_lr_lambda num_cycles num_warmup_steps steps_per_restart)
  else .error .assertionFailed

/-- Whether an Except-valued construction succeeded. -/
def constructionSucceeds {E A : Type} : Except E A → Bool
  | .ok _ => true
  | .error _ => false

/- ===================================================================
   Experiment-tracking handshake (src/tabpfn/fit_model.py 162-170,
   src/mothernet/fit_model.py 100-108)
   =================================================================== -/

/-- Outcome of the mlflow.set_experiment retry loop: either some attempt
succeeded and the loop broke out with the final tries counter, or the
budget was exhausted and the loop fell through. -/
inductive HandshakeOutcome where
  | connected (tries : ℕ)
  | exhausted
deriving Repr, DecidableEq

/-- The retry loop (tries = 0; while tries < 5: try set_experiment;
break; except: tries += 1; sleep), with succeeds k the result of the
attempt made while tries = k and the remaining argument maintaining
5 - tries.  Every exception of an attempt is caught by the bare except,
so the loop itself can never raise: the Except layer , which would carry
an exception escaping the handshake section, is always .ok.  When all
five attempts fail the loop condition ends the loop and execution simply
continues into run-identity resolution. -/
def handshake_aux (succeeds : ℕ → Bool) : ℕ → ℕ → Except Unit HandshakeOutcome
  | _tries, 0 => .ok .exhausted
  | tries, remaining + 1 =>
    if succeeds tries then .ok (.connected tries)
    else handshake_aux succeeds (tries + 1) remaining

/-- The whole handshake section: the loop starting at tries = 0 with the
budget of 5 attempts. -/
def mlflow_handshake (succeeds : ℕ → Bool) : Except Unit HandshakeOutcome :=
  handshake_aux succeeds 0 5

/- ===================================================================
   Theorems about ReduceLROnSpike
   =================================================================== -/

/-- C10: for every optimizer and every factor < 1.0 (with the remaining
arguments arbitrary and min_lr a scalar, as in the default invocation),
ReduceLROnSpike.__init__ raises an unhandled NameError before completing,
because it reads the unbound names threshold and threshold_mode; moreover
no invocation of the constructor whatsoever can produce an instance. -/
theorem reduceLROnSpike_init_raises_nameError (optimizer_lrs : List ℚ)
    (mode : String) (factor : ℚ) (smoothing : ℕ) (min_lr : ℚ) (eps : ℚ)
    (verbose : Bool) (h : factor < 1) :
    ReduceLROnSpike.init optimizer_lrs mode factor smoothing (.scalar min_lr)
        eps verbose = .error .nameError ∧
      ∀ (f : ℚ) (ml : MinLrArg) (s : SpikeState),
        ReduceLROnSpike.init optimizer_lrs mode f smoothing ml eps verbose ≠ .ok s := by
  constructor
  · unfold ReduceLROnSpike.init
    rw [if_neg (not_le.mpr h)]
  · intro f ml s hok
    unfold ReduceLROnSpike.init at hok
    by_cases hf : 1 ≤ f
    · rw [if_pos hf] at hok
      exact Except.noConfusion hok
    · rw [if_neg hf] at hok
      cases ml with
      | scalar q => exact Except.noConfusion hok
      | ofList l =>
        dsimp only at hok
        by_cases hl : l.length ≠ optimizer_lrs.length
        · rw [if_pos hl] at hok
          exact Except.noConfusion hok
        · rw [if_neg hl] at hok
          exact Except.noConfusion hok

/-- Witness for C10: a concrete SGD-style optimizer with one parameter
group and the default configuration still yields NameError. -/
theorem reduceLROnSpike_init_raises_nameError_witness :
    (1 : ℚ) / 2 < 1 ∧
      ReduceLROnSpike.init [1] "min" (1 / 2) 10 (.scalar 0) (1 / 100000000) false
        = .error .nameError :=
  ⟨by norm_num,
    (reduceLROnSpike_init_raises_nameError [1] "min" (1 / 2) 10 0
      (1 / 100000000) false (by norm_num)).1⟩

/-- Concrete scheduler state probing the sliding branch of step: a full
window of two samples with a non-spiking next observation. -/
def spikeProbeState : SpikeState :=
  { factor := 1 / 10, min_lrs := [0], eps := 1 / 100000000, smoothing := 2,
    verbose := false, last_epoch := 0, recent_losses := [1, 2],
    recent_loses := [], lrs := [1], last_lr := none }

/-- C3 (evaluation at the failing input): on a full window [1, 2] with
smoothing 2 and a non-triggering observation 1 (the mean deviation 1/2
does not exceed the standard deviation 1/2), the learning rate is indeed
unchanged, but the smoothing window is NOT slid: line 475 of utils.py
assigns the slid window [2, 1] to the misspelled attribute recent_loses,
so recent_losses stays [1, 2] instead of becoming [2, 1]. -/
theorem spike_step_window_not_slid :
    (spikeProbeState.step 1).lrs = [1] ∧
    (spikeProbeState.step 1).recent_losses = [1, 2] ∧
    (spikeProbeState.step 1).recent_losses ≠ [2, 1] ∧
    (spikeProbeState.step 1).recent_loses = [2, 1] := by
  have h : spikeTrigger [1, 2] 1 = false := by
    simp [spikeTrigger, npMean, npVar]
    norm_num
  simp [spikeProbeState, SpikeState.step, h]

/-- Index characterization of the zip-and-map used by reduce_lr over two
lists of equal length. -/
lemma zip_map_getD (f : ℚ → ℚ → ℚ) :
    ∀ (a b : List ℚ) (i : ℕ), a.length = b.length →
      ((a.zip b).map fun g => f g.1 g.2).getD i 0 =
        if i < a.length then f (a.getD i 0) (b.getD i 0) else 0 := by
  intro a
  induction a with
  | nil => intro b i h; simp
  | cons x xs ih =>
    intro b i h
    cases b with
    | nil => simp at h
    | cons y ys =>
      cases i with
      | zero => simp
      | succ n =>
        simp only [List.zip_cons_cons, List.map_cons, List.getD_cons_succ]
        rw [ih ys n (by simpa using h)]
        simp [Nat.succ_lt_succ_iff]

/-- C4: when the smoothing window is full and the new observation
triggers the spike condition, step resets the window to empty, and every
parameter group learning rate becomes max(old_lr * factor, min_lr),
except that an update whose decrement old_lr - new_lr is not greater
than eps is suppressed and the group rate is unchanged. -/
theorem spike_step_trigger_reduces (s : SpikeState) (current : ℚ)
    (hfull : s.recent_losses.length = s.smoothing)
    (hpos : 0 < s.smoothing)
    (hlen : s.lrs.length = s.min_lrs.length)
    (htrig : spikeTrigger s.recent_losses current = true) :
    (s.step current).recent_losses = [] ∧
    ∀ i, i < s.lrs.length →
      (s.step current).lrs.getD i 0 =
        (if s.eps < s.lrs.getD i 0 - max (s.lrs.getD i 0 * s.factor) (s.min_lrs.getD i 0)
         then max (s.lrs.getD i 0 * s.factor) (s.min_lrs.getD i 0)
         else s.lrs.getD i 0) := by
  have hnotlt : ¬ s.recent_losses.length < s.smoothing := by omega
  unfold SpikeState.step
  dsimp only
  rw [if_neg hnotlt, if_pos htrig]
  refine ⟨rfl, fun i hi => ?_⟩
  show (SpikeState.reduce_lr _).lrs.getD i 0 = _
  unfold SpikeState.reduce_lr
  dsimp only
  rw [zip_map_getD (fun a b => reduceGroupLr s.factor s.eps b a) s.lrs s.min_lrs i hlen]
  rw [if_pos hi]
  unfold reduceGroupLr
  rfl

/-- Concrete state with a full one-sample window where the observation
10 triggers the spike condition. -/
def spikeTriggerProbe : SpikeState :=
  { factor := 1 / 2, min_lrs := [0], eps := 1 / 100000000, smoothing := 1,
    verbose := false, last_epoch := 0, recent_losses := [0],
    recent_loses := [], lrs := [1], last_lr := none }

/-- Witness for C4: the trigger hypotheses hold at spikeTriggerProbe with
observation 10 and the conclusion follows from the theorem. -/
theorem spike_step_trigger_reduces_witness :
    spikeTrigger spikeTriggerProbe.recent_losses 10 = true ∧
    ((spikeTriggerProbe.step 10).recent_losses = [] ∧
      ∀ i, i < spikeTriggerProbe.lrs.length →
        (spikeTriggerProbe.step 10).lrs.getD i 0 =
          (if spikeTriggerProbe.eps <
              spikeTriggerProbe.lrs.getD i 0 -
                max (spikeTriggerProbe.lrs.getD i 0 * spikeTriggerProbe.factor)
                  (spikeTriggerProbe.min_lrs.getD i 0)
           then max (spikeTriggerProbe.lrs.getD i 0 * spikeTriggerProbe.factor)
                  (spikeTriggerProbe.min_lrs.getD i 0)
           else spikeTriggerProbe.lrs.getD i 0)) := by
  have ht : spikeTrigger spikeTriggerProbe.recent_losses 10 = true := by
    simp [spikeTriggerProbe, spikeTrigger, npMean, npVar]
  exact ⟨ht, spike_step_trigger_reduces spikeTriggerProbe 10 rfl (by decide) rfl ht⟩

/-- Lower estimate for the per-group update: with a nonnegative eps the
update never increases the rate, since it only fires when it strictly
decreases it by more than eps. -/
lemma reduceGroupLr_le (factor eps min_lr old_lr : ℚ) (heps : 0 ≤ eps) :
    reduceGroupLr factor eps min_lr old_lr ≤ old_lr := by
  show (if old_lr - max (old_lr * factor) min_lr > eps
        then max (old_lr * factor) min_lr else old_lr) ≤ old_lr
  split_ifs with h
  · linarith
  · exact le_refl _

/-- The per-group update either leaves the rate unchanged or lands at a
value bounded below by min_lr. -/
lemma reduceGroupLr_cases (factor eps min_lr old_lr : ℚ) :
    reduceGroupLr factor eps min_lr old_lr = old_lr ∨
      min_lr ≤ reduceGroupLr factor eps min_lr old_lr := by
  show (if old_lr - max (old_lr * factor) min_lr > eps
        then max (old_lr * factor) min_lr else old_lr) = old_lr ∨
       min_lr ≤ (if old_lr - max (old_lr * factor) min_lr > eps
        then max (old_lr * factor) min_lr else old_lr)
  split_ifs with h
  · exact Or.inr (le_max_right _ _)
  · exact Or.inl rfl

/-- Fields of the state reachable in one step: the configuration is
untouched and the rates either stay or go through _reduce_lr. -/
lemma spike_step_fields (s : SpikeState) (c : ℚ) :
    (s.step c).min_lrs = s.min_lrs ∧ (s.step c).eps = s.eps ∧
      ((s.step c).lrs = s.lrs ∨
        (s.step c).lrs =
          (s.lrs.zip s.min_lrs).map fun g => reduceGroupLr s.factor s.eps g.2 g.1) := by
  unfold SpikeState.step SpikeState.reduce_lr
  dsimp only
  split_ifs <;> simp

/-- One step preserves the number of parameter groups. -/
lemma spike_step_lrs_length (s : SpikeState) (c : ℚ)
    (hlen : s.lrs.length = s.min_lrs.length) :
    (s.step c).lrs.length = s.lrs.length := by
  rcases (spike_step_fields s c).2.2 with h | h
  · rw [h]
  · rw [h]; simp [hlen]

/-- One step never increases a group rate (for nonnegative eps) and
either leaves it unchanged or keeps it at least min_lr. -/
lemma spike_step_lrs_getD (s : SpikeState) (c : ℚ) (heps : 0 ≤ s.eps)
    (hlen : s.lrs.length = s.min_lrs.length) (i : ℕ) :
    (s.step c).lrs.getD i 0 ≤ s.lrs.getD i 0 ∧
      ((s.step c).lrs.getD i 0 = s.lrs.getD i 0 ∨
        s.min_lrs.getD i 0 ≤ (s.step c).lrs.getD i 0) := by
  rcases (spike_step_fields s c).2.2 with h | h
  · rw [h]; exact ⟨le_refl _, Or.inl rfl⟩
  · rw [h, zip_map_getD (fun a b => reduceGroupLr s.factor s.eps b a) s.lrs s.min_lrs i hlen]
    by_cases hi : i < s.lrs.length
    · rw [if_pos hi]
      exact ⟨reduceGroupLr_le s.factor s.eps (s.min_lrs.getD i 0) (s.lrs.getD i 0) heps,
        reduceGroupLr_cases s.factor s.eps (s.min_lrs.getD i 0) (s.lrs.getD i 0)⟩
    · rw [if_neg hi]
      have h0 : s.lrs.getD i 0 = 0 := List.getD_eq_default _ _ (le_of_not_lt hi)
      rw [h0]
      exact ⟨le_refl _, Or.inl rfl⟩

/-- C6: across every sequence of step calls with a nonnegative eps (the
default is 1e-8) and matching group counts, every parameter group rate is
monotone non-increasing, and any group whose rate did change is bounded
below by its configured min_lr (a reduction never lands below min_lr). -/
theorem spike_stepMany_monotone (s : SpikeState) (ms : List ℚ)
    (heps : 0 ≤ s.eps) (hlen : s.lrs.length = s.min_lrs.length) :
    (s.stepMany ms).lrs.length = s.lrs.length ∧
    ∀ i, (s.stepMany ms).lrs.getD i 0 ≤ s.lrs.getD i 0 ∧
      ((s.stepMany ms).lrs.getD i 0 = s.lrs.getD i 0 ∨
        s.min_lrs.getD i 0 ≤ (s.stepMany ms).lrs.getD i 0) := by
  induction ms generalizing s with
  | nil => exact ⟨rfl, fun i => ⟨le_refl _, Or.inl rfl⟩⟩
  | cons m rest ih =>
    have hfold : s.stepMany (m :: rest) = (s.step m).stepMany rest := rfl
    have hfields := spike_step_fields s m
    have heps2 : 0 ≤ (s.step m).eps := hfields.2.1 ▸ heps
    have hlen2 : (s.step m).lrs.length = (s.step m).min_lrs.length := by
      rw [spike_step_lrs_length s m hlen, hfields.1]
      exact hlen
    have htail := ih (s.step m) heps2 hlen2
    constructor
    · rw [hfold, htail.1, spike_step_lrs_length s m hlen]
    · intro i
      have h1 := htail.2 i
      have h2 := spike_step_lrs_getD s m heps hlen i
      have hm : (s.step m).min_lrs.getD i 0 = s.min_lrs.getD i 0 := by rw [hfields.1]
      constructor
      · rw [hfold]
        exact le_trans h1.1 h2.1
      · rw [hfold]
        rcases h1.2 with heq | hge
        · rcases h2.2 with heq2 | hge2
          · exact Or.inl (heq.trans heq2)
          · exact Or.inr (heq ▸ hge2)
        · exact Or.inr (hm ▸ hge)

/-- Concrete state for the C6 witness: one parameter group, eps zero. -/
def spikeMonotoneProbe : SpikeState :=
  { factor := 1 / 2, min_lrs := [0], eps := 0, smoothing := 1,
    verbose := false, last_epoch := 0, recent_losses := [],
    recent_loses := [], lrs := [1], last_lr := none }

/-- Witness for C6: the hypotheses hold at spikeMonotoneProbe for the
observation sequence [5, 100] and the conclusion follows. -/
theorem spike_stepMany_monotone_witness :
    (0 ≤ spikeMonotoneProbe.eps ∧
      spikeMonotoneProbe.lrs.length = spikeMonotoneProbe.min_lrs.length) ∧
    ((spikeMonotoneProbe.stepMany [5, 100]).lrs.length = spikeMonotoneProbe.lrs.length ∧
      ∀ i, (spikeMonotoneProbe.stepMany [5, 100]).lrs.getD i 0 ≤
          spikeMonotoneProbe.lrs.getD i 0 ∧
        ((spikeMonotoneProbe.stepMany [5, 100]).lrs.getD i 0 =
            spikeMonotoneProbe.lrs.getD i 0 ∨
          spikeMonotoneProbe.min_lrs.getD i 0 ≤
            (spikeMonotoneProbe.stepMany [5, 100]).lrs.getD i 0)) :=
  ⟨⟨le_refl 0, rfl⟩, spike_stepMany_monotone spikeMonotoneProbe [5, 100] (le_refl 0) rfl⟩

/- ===================================================================
   Theorems about the checkpoint manager
   =================================================================== -/

/-- C5: at a due save point (epoch % save_every == 0), when the target
volume reports free space strictly below 2 GiB, the disk guard returns
before any write: no checkpoint file is written, no pruning happens, and
no exception escapes the epoch callback; moreover no exception escapes
the callback on any input whatsoever (the whole section sits inside a
try/except that swallows every exception). -/
theorem disk_guard_skips_write (epoch save_every free_bytes : ℕ) (losses : List ℚ)
    (exists_file : ℕ → Bool) (save_model_ok : Bool)
    (hdue : epoch % save_every = 0)
    (hlow : free_bytes < 1024 * 1024 * 1024 * 2) :
    save_callback_ckpt epoch save_every free_bytes losses exists_file save_model_ok =
      { fileWritten := false, removed := [], escapedException := false } ∧
    ∀ (e se fb : ℕ) (ls : List ℚ) (ef : ℕ → Bool) (ok : Bool),
      (save_callback_ckpt e se fb ls ef ok).escapedException = false := by
  constructor
  · unfold save_callback_ckpt
    rw [if_pos hdue, if_pos hlow]
  · intro e se fb ls ef ok
    unfold save_callback_ckpt
    split_ifs <;> rfl

/-- Witness for C5: a concrete due epoch with zero free bytes. -/
theorem disk_guard_skips_write_witness :
    (2 % 1 = 0 ∧ 0 < 1024 * 1024 * 1024 * 2) ∧
      save_callback_ckpt 2 1 0 [1, 2] (fun _ => true) true =
        { fileWritten := false, removed := [], escapedException := false } :=
  ⟨⟨by decide, by decide⟩,
    (disk_guard_skips_write 2 1 0 [1, 2] (fun _ => true) true (by decide) (by decide)).1⟩

/-- C1 (counterexample): with per-bucket losses [10, 8, 9, 5], save_every
1, current epoch 3 and every earlier checkpoint file present, the sweep
removes buckets 1 and 2 only; bucket 0 is NOT removed, although its
recorded loss (10) is strictly greater than the current loss (5), because
iteration 0 reads model.losses[0 * save_every - 1], which in Python wraps
around to losses[-1], the current loss itself.  The claim asserts that
buckets 0, 1 and 2 are all deleted here. -/
theorem checkpoint_retention_counterexample :
    retentionRemoved [10, 8, 9, 5] 1 3 (fun _ => true) = [1, 2] ∧
      0 ∉ retentionRemoved [10, 8, 9, 5] 1 3 (fun _ => true) := by decide

/-- Removal decision for one iteration of the pruning loop, read off the
loop body: the bucket file is removed when the loss that the iteration
reads from model.losses exists and the file exists and the read loss is
strictly greater than the current loss. -/
def bucketDoomed (losses : List ℚ) (save_every : ℕ) (exists_file : ℕ → Bool)
    (this_loss : ℚ) (i : ℕ) : Bool :=
  match pyGet losses ((i : ℤ) * (save_every : ℤ) - 1) with
  | none => false
  | some loss => exists_file (i * save_every) && decide (this_loss < loss)

/-- Reading index -1 on a nonempty list yields the last element. -/
lemma pyGet_neg_one (xs : List ℚ) (h : xs ≠ []) :
    pyGet xs (-1) = some (xs.getD (xs.length - 1) 0) := by
  have hlen : 0 < xs.length := List.length_pos.mpr h
  unfold pyGet
  have h1 : ((-1 : ℤ) < 0) := by norm_num
  rw [if_pos h1, if_pos (by omega : (0 : ℤ) ≤ -1 + (xs.length : ℤ))]
  have h2 : ((-1 : ℤ) + (xs.length : ℤ)).toNat = xs.length - 1 := by omega
  rw [h2]
  have h3 : xs.length - 1 < xs.length := by omega
  rw [List.get?_eq_get h3, List.getD_eq_getElem xs 0 h3]
  rfl

/-- Reading a nonnegative in-range index yields that element. -/
lemma pyGet_nat (xs : List ℚ) (n : ℕ) (h : n < xs.length) :
    pyGet xs (n : ℤ) = some (xs.getD n 0) := by
  unfold pyGet
  rw [if_neg (by omega : ¬ ((n : ℤ) < 0)), if_pos (by omega : (0 : ℤ) ≤ (n : ℤ))]
  have h2 : ((n : ℤ)).toNat = n := by omega
  rw [h2, List.get?_eq_get h, List.getD_eq_getElem xs 0 h]
  rfl

/-- When every iteration of the pruning loop reads its loss successfully,
the loop removes exactly the buckets whose removal decision holds. -/
lemma retentionLoop_eq (losses : List ℚ) (save_every : ℕ) (exists_file : ℕ → Bool)
    (this_loss : ℚ) :
    ∀ is : List ℕ, (∀ i ∈ is, (pyGet losses ((i : ℤ) * (save_every : ℤ) - 1)).isSome) →
      retentionLoop losses save_every exists_file this_loss is =
        (is.filter (bucketDoomed losses save_every exists_file this_loss)).map
          (fun i => i * save_every) := by
  intro is
  induction is with
  | nil => intro _; rfl
  | cons j rest ih =>
    intro h
    obtain ⟨l, hl⟩ := Option.isSome_iff_exists.mp (h j (List.mem_cons_self j rest))
    have hrest := fun i hi => h i (List.mem_cons_of_mem j hi)
    unfold retentionLoop
    rw [hl]
    dsimp only
    have hd : bucketDoomed losses save_every exists_file this_loss j =
        (exists_file (j * save_every) && decide (this_loss < l)) := by
      unfold bucketDoomed
      rw [hl]
    by_cases hc : (exists_file (j * save_every) && decide (this_loss < l)) = true
    · rw [if_pos hc, List.filter_cons_of_pos (by rw [hd]; exact hc), List.map_cons,
        ih hrest]
    · rw [if_neg hc, List.filter_cons_of_neg (by rw [hd]; exact hc), ih hrest]

/-- C1 (amended): after a successful periodic write (epoch due, disk
space sufficient, save_model succeeded) at an integer epoch with
epoch - save_every > 0, and with every loss index read by the loop in
range, an earlier bucket i * save_every with i >= 1 is deleted if and
only if its file exists and the loss recorded at losses[i * save_every - 1]
(the loss of epoch i * save_every under the 1-based epoch numbering of
the loss history) is strictly greater than the current loss; the bucket
of iteration i = 0 is never deleted, because that iteration compares the
current loss with itself through the wrapped index -1. -/
theorem checkpoint_retention_amended
    (losses : List ℚ) (save_every epoch free_bytes : ℕ) (exists_file : ℕ → Bool)
    (hse : 0 < save_every) (hdue : epoch % save_every = 0)
    (hfree : 1024 * 1024 * 1024 * 2 ≤ free_bytes)
    (hgap : save_every < epoch) (hne : losses ≠ [])
    (hrange : ∀ j, j < epoch / save_every → j * save_every ≤ losses.length) :
    (save_callback_ckpt epoch save_every free_bytes losses exists_file true).removed =
        retentionRemoved losses save_every epoch exists_file ∧
    (∀ i, 1 ≤ i → i < epoch / save_every →
      (i * save_every ∈ retentionRemoved losses save_every epoch exists_file ↔
        exists_file (i * save_every) = true ∧
          losses.getD (losses.length - 1) 0 < losses.getD (i * save_every - 1) 0)) ∧
    0 ∉ retentionRemoved losses save_every epoch exists_file := by
  have hthis : pyGet losses (-1) = some (losses.getD (losses.length - 1) 0) :=
    pyGet_neg_one losses hne
  have hcast : ∀ i : ℕ, 1 ≤ i → i < epoch / save_every →
      ((i : ℤ) * (save_every : ℤ) - 1) = ((i * save_every - 1 : ℕ) : ℤ) := by
    intro i h1 h2
    have h1' : 1 ≤ i * save_every := Nat.one_le_iff_ne_zero.mpr
      (Nat.mul_ne_zero (by omega) (by omega))
    rw [Nat.cast_sub h1']
    push_cast
    ring
  have hidx : ∀ i : ℕ, 1 ≤ i → i < epoch / save_every →
      i * save_every - 1 < losses.length := by
    intro i h1 h2
    have hle := hrange i h2
    have h1' : 1 ≤ i * save_every := Nat.one_le_iff_ne_zero.mpr
      (Nat.mul_ne_zero (by omega) (by omega))
    omega
  have hread : ∀ i ∈ List.range (epoch / save_every),
      (pyGet losses ((i : ℤ) * (save_every : ℤ) - 1)).isSome := by
    intro i hi
    have hilt := List.mem_range.mp hi
    rcases Nat.eq_zero_or_pos i with h0 | h1
    · subst h0
      have hm1 : ((0 : ℕ) : ℤ) * (save_every : ℤ) - 1 = -1 := by push_cast; ring
      rw [hm1, hthis]
      rfl
    · rw [hcast i h1 hilt, pyGet_nat losses _ (hidx i h1 hilt)]
      rfl
  have hRR : retentionRemoved losses save_every epoch exists_file =
      ((List.range (epoch / save_every)).filter
          (bucketDoomed losses save_every exists_file
            (losses.getD (losses.length - 1) 0))).map (fun i => i * save_every) := by
    unfold retentionRemoved
    rw [if_pos hgap, hthis]
    dsimp only
    exact retentionLoop_eq losses save_every exists_file _ _ hread
  refine ⟨?_, ?_, ?_⟩
  · unfold save_callback_ckpt
    rw [if_pos hdue, if_neg (not_lt.mpr hfree), if_pos rfl]
  · intro i h1 h2
    have hdoomed : bucketDoomed losses save_every exists_file
        (losses.getD (losses.length - 1) 0) i =
          (exists_file (i * save_every) &&
            decide (losses.getD (losses.length - 1) 0 < losses.getD (i * save_every - 1) 0)) := by
      unfold bucketDoomed
      rw [hcast i h1 h2, pyGet_nat losses _ (hidx i h1 h2)]
    rw [hRR]
    constructor
    · intro hmem
      obtain ⟨j, hjf, hj⟩ := List.mem_map.mp hmem
      obtain ⟨hjr, hjd⟩ := List.mem_filter.mp hjf
      have hji : j = i := Nat.eq_of_mul_eq_mul_right hse hj
      subst hji
      rw [hdoomed] at hjd
      simpa using hjd
    · intro hcond
      refine List.mem_map.mpr ⟨i, List.mem_filter.mpr ⟨List.mem_range.mpr h2, ?_⟩, rfl⟩
      rw [hdoomed]
      simpa using hcond
  · rw [hRR]
    intro hmem
    obtain ⟨j, hjf, hj⟩ := List.mem_map.mp hmem
    obtain ⟨hjr, hjd⟩ := List.mem_filter.mp hjf
    have hj0 : j = 0 := by
      rcases Nat.mul_eq_zero.mp hj with h | h
      · exact h
      · omega
    subst hj0
    unfold bucketDoomed at hjd
    have hm1 : ((0 : ℕ) : ℤ) * (save_every : ℤ) - 1 = -1 := by push_cast; ring
    rw [hm1, hthis] at hjd
    simp at hjd

/-- Witness for C1 (amended): the hypotheses hold at the concrete
counterexample configuration and the conclusion follows. -/
theorem checkpoint_retention_amended_witness :
    (0 < 1 ∧ 3 % 1 = 0 ∧ 1024 * 1024 * 1024 * 2 ≤ 2147483648 ∧ 1 < 3 ∧
      ([10, 8, 9, 5] : List ℚ) ≠ [] ∧
      ∀ j, j < 3 / 1 → j * 1 ≤ ([10, 8, 9, 5] : List ℚ).length) ∧
    ((save_callback_ckpt 3 1 2147483648 [10, 8, 9, 5] (fun _ => true) true).removed =
        retentionRemoved [10, 8, 9, 5] 1 3 (fun _ => true) ∧
      (∀ i, 1 ≤ i → i < 3 / 1 →
        (i * 1 ∈ retentionRemoved [10, 8, 9, 5] 1 3 (fun _ => true) ↔
          (fun _ => true) (i * 1) = true ∧
            ([10, 8, 9, 5] : List ℚ).getD (([10, 8, 9, 5] : List ℚ).length - 1) 0 <
              ([10, 8, 9, 5] : List ℚ).getD (i * 1 - 1) 0)) ∧
      0 ∉ retentionRemoved [10, 8, 9, 5] 1 3 (fun _ => true)) :=
  ⟨⟨by decide, by decide, by decide, by decide, by decide, by decide⟩,
    checkpoint_retention_amended [10, 8, 9, 5] 1 3 2147483648 (fun _ => true)
      (by decide) (by decide) (by decide) (by decide) (by decide) (by decide)⟩

/- ===================================================================
   Theorems about the config reconciler
   =================================================================== -/

/-- C2: when continuing a run, the adopted configuration equals the
checkpoint configuration on every key except exactly the three keys
overwritten from the invocation (device, warm_start_from,
stop_after_epochs), which take the invocation values; and the checkpoint
scheduler state is kept if and only if a scheduler restart was not
requested (otherwise the scheduler slot stays empty and is rebuilt from
the adopted config). -/
theorem continue_run_reconciliation {V S : Type} (old_config : String → V)
    (device warm_start_from stop_after_epochs : V) (restart_scheduler : Bool)
    (old_scheduler : S) :
    (∀ k, k ≠ "device" → k ≠ "warm_start_from" → k ≠ "stop_after_epochs" →
        reconcileContinueConfig old_config device warm_start_from stop_after_epochs k
          = old_config k) ∧
    reconcileContinueConfig old_config device warm_start_from stop_after_epochs
        "device" = device ∧
    reconcileContinueConfig old_config device warm_start_from stop_after_epochs
        "warm_start_from" = warm_start_from ∧
    reconcileContinueConfig old_config device warm_start_from stop_after_epochs
        "stop_after_epochs" = stop_after_epochs ∧
    (reconcileScheduler restart_scheduler old_scheduler = some old_scheduler ↔
      restart_scheduler = false) := by
  refine ⟨?_, ?_, ?_, ?_, ?_⟩
  · intro k h1 h2 h3
    unfold reconcileContinueConfig setKey
    rw [if_neg h3, if_neg h2, if_neg h1]
  · unfold reconcileContinueConfig setKey
    rw [if_neg (by decide), if_neg (by decide), if_pos rfl]
  · unfold reconcileContinueConfig setKey
    rw [if_neg (by decide), if_pos rfl]
  · unfold reconcileContinueConfig setKey
    rw [if_pos rfl]
  · unfold reconcileScheduler
    cases restart_scheduler
    · simp
    · simp

/-- Witness for C2: a concrete integer-valued configuration. -/
theorem continue_run_reconciliation_witness :
    reconcileContinueConfig (fun _ => (0 : ℕ)) 1 2 3 "lr" = 0 ∧
    reconcileContinueConfig (fun _ => (0 : ℕ)) 1 2 3 "device" = 1 ∧
    reconcileContinueConfig (fun _ => (0 : ℕ)) 1 2 3 "warm_start_from" = 2 ∧
    reconcileContinueConfig (fun _ => (0 : ℕ)) 1 2 3 "stop_after_epochs" = 3 ∧
    (reconcileScheduler false (7 : ℕ) = some 7 ↔ (false = false)) := by
  have h := continue_run_reconciliation (fun _ => (0 : ℕ)) 1 2 3 false (7 : ℕ)
  exact ⟨h.1 "lr" (by decide) (by decide) (by decide), h.2.1, h.2.2.1, h.2.2.2.1,
    h.2.2.2.2⟩

/- ===================================================================
   Theorems about the restarting cosine schedule
   =================================================================== -/

/-- C7 (counterexample): with warmup 2 and period 4, the multiplier at
step 4 is 1 (the second period starts directly at the top of the cosine,
with no warmup), while the multiplier at step 4 mod 4 = 0 is 0 (the ramp
start), so the schedule is not periodic with the warmup ramp included in
every period. -/
theorem restart_schedule_counterexample :
    restart_lr_lambda (1 / 2) 2 4 4 ≠ restart_lr_lambda (1 / 2) 2 4 (4 % 4) := by
  have h1 : restart_lr_lambda (1 / 2) 2 4 4 = 1 := by
    unfold restart_lr_lambda inner_lr_lambda
    norm_num
  have h2 : restart_lr_lambda (1 / 2) 2 4 (4 % 4) = 0 := by
    unfold restart_lr_lambda inner_lr_lambda
    norm_num
  rw [h1, h2]
  norm_num

/-- C7 (amended): the schedule is periodic with period steps_per_restart
only from the first restart onward: for every step s at or beyond
steps_per_restart the multiplier equals the zero-warmup inner cycle at
s mod steps_per_restart, and equals the multiplier one full period later;
the warmup ramp runs in the first period only. -/
theorem restart_schedule_periodic_after_first (num_cycles : ℝ) (W P s : ℕ)
    (h : P ≤ s) :
    restart_lr_lambda num_cycles W P s = inner_lr_lambda num_cycles (s % P) 0 P ∧
    restart_lr_lambda num_cycles W P s = restart_lr_lambda num_cycles W P (s + P) := by
  have h1 : ¬ s < P := not_lt.mpr h
  have h2 : ¬ s + P < P := by omega
  constructor
  · unfold restart_lr_lambda
    rw [if_neg h1]
  · unfold restart_lr_lambda
    rw [if_neg h1, if_neg h2, Nat.add_mod_right]

/-- Witness for C7 (amended) at warmup 2, period 4, step 4. -/
theorem restart_schedule_periodic_after_first_witness :
    (4 : ℕ) ≤ 4 ∧
      (restart_lr_lambda (1 / 2) 2 4 4 = inner_lr_lambda (1 / 2) (4 % 4) 0 4 ∧
        restart_lr_lambda (1 / 2) 2 4 4 = restart_lr_lambda (1 / 2) 2 4 (4 + 4)) :=
  ⟨by decide, restart_schedule_periodic_after_first (1 / 2) 2 4 4 (by decide)⟩

/-- C8: for a positive restart period, constructing the restarting
schedule succeeds if and only if the period divides the total number of
training steps, and it fails with the assertion (configuration) error if
and only if the period does not divide the total step count. -/
theorem restart_schedule_divisibility (num_cycles : ℝ) (W T P : ℕ) (hP : 0 < P) :
    (constructionSucceeds
        (get_restarting_cosine_schedule_with_warmup num_cycles W T P) = true ↔
      P ∣ T) ∧
    (get_restarting_cosine_schedule_with_warmup num_cycles W T P =
        .error .assertionFailed ↔ ¬ P ∣ T) := by
  have hP0 : P ≠ 0 := Nat.pos_iff_ne_zero.mp hP
  have hiff : T % P = 0 ↔ P ∣ T := Nat.dvd_iff_mod_eq_zero.symm
  unfold get_restarting_cosine_schedule_with_warmup
  rw [if_neg hP0]
  by_cases hd : T % P = 0
  · rw [if_pos hd]
    refine ⟨⟨fun _ => hiff.mp hd, fun _ => rfl⟩, iff_of_false (by simp) ?_⟩
    intro hnd
    exact hnd (hiff.mp hd)
  · rw [if_neg hd]
    refine ⟨iff_of_false (by simp [constructionSucceeds]) ?_, iff_of_true rfl ?_⟩
    · intro hdvd
      exact hd (hiff.mpr hdvd)
    · intro hdvd
      exact hd (hiff.mpr hdvd)

/-- Witness for C8: period 4 divides 8 total steps and construction
succeeds. -/
theorem restart_schedule_divisibility_witness :
    (0 < 4 ∧ (4 : ℕ) ∣ 8) ∧
      constructionSucceeds
        (get_restarting_cosine_schedule_with_warmup (1 / 2) 2 8 4) = true :=
  ⟨⟨by decide, by decide⟩,
    ((restart_schedule_divisibility (1 / 2) 2 8 4 (by decide)).1).mpr (by decide)⟩

/- ===================================================================
   Theorems about the experiment-tracking handshake
   =================================================================== -/

/-- C9 (counterexample): when every one of the 5 attempts fails, the
retry loop exits with the exhausted outcome and no error is surfaced
(the result is .ok, not .error): the run silently continues, contrary to
the claim that exhaustion is surfaced as a fatal error. -/
theorem handshake_counterexample :
    mlflow_handshake (fun _ => false) = .ok .exhausted ∧
      mlflow_handshake (fun _ => false) ≠ .error () := by
  constructor
  · rfl
  · intro h
    rw [show mlflow_handshake (fun _ => false)
        = Except.ok HandshakeOutcome.exhausted from rfl] at h
    exact Except.noConfusion h

/-- C9 (amended): if all 5 attempts of the experiment-tracking handshake
fail, the loop gives up after the fifth attempt and execution continues
with no error raised; the exhaustion is swallowed silently. -/
theorem handshake_exhaustion_silent (succeeds : ℕ → Bool)
    (h : ∀ k, k < 5 → succeeds k = false) :
    mlflow_handshake succeeds = .ok .exhausted := by
  have e0 := h 0 (by norm_num)
  have e1 := h 1 (by norm_num)
  have e2 := h 2 (by norm_num)
  have e3 := h 3 (by norm_num)
  have e4 := h 4 (by norm_num)
  simp only [mlflow_handshake, handshake_aux, e0, e1, e2, e3, e4,
    Bool.false_eq_true, if_false]

/-- Witness for C9 (amended): the always-failing attempt function. -/
theorem handshake_exhaustion_silent_witness :
    (∀ k, k < 5 → (fun _ => false) k = false) ∧
      mlflow_handshake (fun _ => false) = .ok .exhausted :=
  ⟨fun _ _ => rfl, handshake_exhaustion_silent (fun _ => false) (fun _ _ => rfl)⟩
